import Mathlib

/-!
Verification of the `lscat-utils` MJPEG server (`src/mjpeg_server.py`)
against its natural-language specification.

The embedding models:
* the filesystem visible to the server process (working directory is the
  camera base directory, after `os.chdir(CAM_DIR)`) as a finite map from
  relative path strings to file contents (byte lists);
* feed resolution (`mjpeg_server`, lines 56-66);
* one iteration of the streaming loop (`mjpeg_streamer`, lines 73-95),
  with distinct filesystem snapshots for the `os.stat` call and the
  `open`/`read` call, since an external writer may replace the frame file
  between the two, and with explicit success flags for the three
  `response.send` calls;
* the pacing decision (lines 93-95) over exact rationals in place of
  Python floats;
* the module-level configuration constants (lines 38-44) and the
  `__main__` startup block (lines 112-130), including its references to
  names that the module never defines.
-/

namespace MjpegServer

/-- A filesystem snapshot: a finite association list from (relative) path
strings to file contents as byte lists. -/
abbrev FS := List (String × List Nat)

/-- Contents of the file at path `p`, if it exists (`open`/`read`). -/
def fsLookup (fs : FS) (p : String) : Option (List Nat) :=
  List.lookup p fs

/-- `os.path.exists p` over an `FS` snapshot. -/
def pathExistsB (fs : FS) (p : String) : Bool :=
  (fsLookup fs p).isSome

/-- `os.stat(p).st_size` over an `FS` snapshot: byte length of the file at
`p`, or `none` when `os.stat` would raise. -/
def statSize (fs : FS) (p : String) : Option Nat :=
  (fsLookup fs p).map List.length

/-- `os.path.join a b` for the relative, non-empty components the server
uses. -/
def osPathJoin (a b : String) : String :=
  a ++ "/" ++ b

/-- The fixed frame file name used on lines 63, 65 and 69. -/
def frameFileName : String := "image00001.jpg"

/-- Feed resolution, `mjpeg_server` lines 57-66: prefer the numbered
sub-feed directory `{feed}/{feed}-1`, fall back to `{feed}`, else the
handler raises `sanic.exceptions.NotFound` (modelled as `none`). -/
def resolveFeedDir (fs : FS) (feed : String) : Option String :=
  let feedSubdir := feed
  let d2 := osPathJoin feed (feed ++ "-1")
  if pathExistsB fs (osPathJoin d2 frameFileName) then
    some d2
  else if !(pathExistsB fs (osPathJoin feedSubdir frameFileName)) then
    none
  else
    some feedSubdir

/-- The content type sent by `request.respond` on line 105. -/
def mjpegContentType : String :=
  "multipart/x-mixed-replace; boundary=lscat_mjpeg"

/-- Outcome of dispatching one HTTP request. -/
inductive ResponseOutcome where
  | forbidden
  | notFound (msg : String)
  | streamStarted (contentType : String) (feedSubdir : String)
  deriving DecidableEq, Repr

/-- The request paths the app routes: `/` (line 108) and `/<feed:str>`
(line 55). -/
inductive Route where
  | root
  | feedPath (feed : String)
  deriving DecidableEq, Repr

/-- Request dispatch: `forbidden` (lines 108-110) always raises
`sanic.exceptions.Forbidden`; `mjpeg_server` (lines 55-106) resolves the
feed and either raises `NotFound` or starts the multipart response. -/
def handleRequest (fs : FS) (r : Route) : ResponseOutcome :=
  match r with
  | .root => .forbidden
  | .feedPath feed =>
    match resolveFeedDir fs feed with
    | none => .notFound ("cannot find images for feed " ++ feed)
    | some d => .streamStarted mjpegContentType d

/-! ## Streaming loop (`mjpeg_streamer`, lines 68-95) -/

/-- The f-string preamble sent by the first `response.send` on line 80:
`f"--lscat_mjpeg\r\ncontent-type: image/jpg\r\ncontent-length: {finfo.st_size}\r\n\r\n"`. -/
def framePreamble (n : Nat) : String :=
  "--lscat_mjpeg\r\ncontent-type: image/jpg\r\ncontent-length: " ++
    toString n ++ "\r\n\r\n"

/-- The trailing delimiter sent by the third `response.send` on line 82. -/
def crlf : String := "\r\n"

/-- ASCII bytes of a string, for reasoning about the wire format. -/
def strBytes (s : String) : List Nat :=
  s.data.map Char.toNat

/-- One multipart part as assembled by lines 78-82: the content-length
value taken from `os.stat` and the payload bytes read from the opened
file handle. -/
structure Chunk where
  declaredLen : Nat
  payload : List Nat
  deriving DecidableEq, Repr

/-- The bytes of one part as they appear on the wire: preamble (with the
declared content-length), payload, trailing CRLF. -/
def chunkWire (c : Chunk) : List Nat :=
  strBytes (framePreamble c.declaredLen) ++ c.payload ++ strBytes crlf

/-- The external inputs of one loop iteration: the filesystem snapshot
observed by `os.stat(fileName)` (line 78), the snapshot observed by
`open(fileName)`/`fh.read()` (lines 79-81) — distinct because the
external writer may replace the file between the two system calls —
and whether each of the three `response.send` calls (lines 80-82)
succeeds or raises (e.g. broken pipe after a client disconnect). -/
structure IterEnv where
  fsStat : FS
  fsOpen : FS
  send1Ok : Bool
  send2Ok : Bool
  send3Ok : Bool
  deriving DecidableEq, Repr

/-- Result of one iteration of the `while True` body, lines 74-84. -/
inductive IterOutcome where
  | serverError
  | sent (c : Chunk)
  deriving DecidableEq, Repr

/-- One iteration of the streaming loop body (lines 74-84): stat the
frame file, open and read it, send preamble, payload and trailer. Any
exception inside the `try` block — `os.stat`/`open` raising because the
file is absent, or any `response.send` raising because the client is
gone — reaches the `except` clause on line 83, which raises
`sanic.exceptions.ServerError` (line 84). -/
def streamIteration (env : IterEnv) (fileName : String) : IterOutcome :=
  match statSize env.fsStat fileName with
  | none => .serverError
  | some n =>
    match fsLookup env.fsOpen fileName with
    | none => .serverError
    | some bytes =>
      if env.send1Ok && env.send2Ok && env.send3Ok then
        .sent ⟨n, bytes⟩
      else
        .serverError

/-- Session state of `mjpeg_streamer`: streaming (inside the
`while True` loop) or closed (the loop was exited by a raised
exception), carrying the parts fully sent so far. -/
inductive SessionState where
  | streaming (chunks : List Chunk)
  | closed (chunks : List Chunk)
  deriving DecidableEq, Repr

/-- One step of the `while True` loop (lines 73-95): the body either
completes a part and the loop continues, or raises `ServerError` and
the session is over. The loop has no `break` or `return`. -/
def loopStep (env : IterEnv) (fileName : String) :
    SessionState → SessionState
  | .closed cs => .closed cs
  | .streaming cs =>
    match streamIteration env fileName with
    | .serverError => .closed cs
    | .sent c => .streaming (cs ++ [c])

/-- The session after `n` iterations of the loop, with iteration `k`
running in external environment `envs k`. -/
def loopRun (envs : Nat → IterEnv) (fileName : String) : Nat → SessionState
  | 0 => .streaming []
  | n + 1 => loopStep (envs n) fileName (loopRun envs fileName n)

/-- A full session on the `/<feed:str>` route: dispatch, then (when the
feed resolves) run `n` iterations of `mjpeg_streamer` on
`os.path.join(feedSubdir, "image00001.jpg")` (line 69). A `NotFound`
request never reaches `request.respond`/`mjpeg_streamer`. -/
def handleSession (fs : FS) (feed : String) (envs : Nat → IterEnv)
    (n : Nat) : ResponseOutcome × SessionState :=
  match handleRequest fs (.feedPath feed) with
  | .streamStarted ct d =>
    (.streamStarted ct d, loopRun envs (osPathJoin d frameFileName) n)
  | out => (out, .closed [])

/-! ## Pacing (lines 93-95) -/

/-- `FRAME_TIME = 1.0/FRAME_RATE` (line 43), over exact rationals. -/
def FRAME_TIME (frameRate : ℚ) : ℚ := 1 / frameRate

/-- The pacing decision of lines 94-95:
`if elapsed > 0 and elapsed < (FRAME_TIME - 0.01): await asyncio.sleep(FRAME_TIME - elapsed)`.
Returns the duration passed to `asyncio.sleep`, or `none` when no sleep
happens. Python float arithmetic is modelled over exact rationals. -/
def sleepAfterFrame (frameTime elapsed : ℚ) : Option ℚ :=
  if 0 < elapsed ∧ elapsed < frameTime - 1 / 100 then
    some (frameTime - elapsed)
  else
    none

/-! ## Configuration and startup (lines 38-44 and 112-130) -/

/-- A Python value as it matters here: the string `os.getenv` returns
when the variable is set, or the non-string default. -/
inductive PyVal where
  | str (s : String)
  | int (n : Int)
  deriving DecidableEq, Repr

/-- Process environment variables. -/
def Env := String → Option String

/-- Line 38: `PORT=os.getenv("LSCAT_SERVER_PORT", 443)` — the raw
environment string when set (no parsing, no validation), the integer
`443` otherwise. -/
def PORT (env : Env) : PyVal :=
  match env "LSCAT_SERVER_PORT" with
  | some s => .str s
  | none => .int 443

/-- Line 39: `TLS_CERT=os.getenv("LSCAT_TLS_CERT")`. -/
def TLS_CERT (env : Env) : Option String := env "LSCAT_TLS_CERT"

/-- Line 40: `TLS_KEY=os.getenv("LSCAT_TLS_KEY")`. -/
def TLS_KEY (env : Env) : Option String := env "LSCAT_TLS_KEY"

/-- The names bound at module scope in `mjpeg_server.py` when the
`__main__` block runs: the imports (lines 1-9) and the module-level
assignments and definitions (lines 38-110). -/
def moduleNames : List String :=
  ["json", "os", "sys", "time", "traceback", "asyncio", "sanic", "Sanic",
   "PORT", "TLS_CERT", "TLS_KEY", "CAM_DIR", "FRAME_RATE", "FRAME_TIME",
   "CSP_HEADER", "app", "add_csp_and_disable_caching", "mjpeg_server",
   "forbidden"]

/-- Python name resolution at module scope: evaluating an unbound name
raises `NameError`. -/
def lookupName (n : String) : Option String :=
  if n ∈ moduleNames then some n else none

/-- Outcome of running the `__main__` block. -/
inductive StartupResult where
  | nameFault (name : String)
  | running (tls : Bool) (port : PyVal)
  deriving DecidableEq, Repr

/-- The `__main__` block, lines 112-125. After `tlsConf = None`, line 114
evaluates the name `TLS_CERT_FILE`; the module defines `TLS_CERT`
(line 39), never `TLS_CERT_FILE`, so this raises `NameError` before
anything else runs (the dict literal on lines 115-118 is additionally
missing a comma, a syntax error, which is below this semantic model).
Were that name bound, `app.run(host="0.0.0.0", port=LSCAT_PORT, ...)`
on lines 123 and 125 would evaluate `LSCAT_PORT`, another name the
module never defines (`PORT` is the one bound, line 38). -/
def mainBlock (env : Env) : StartupResult :=
  match lookupName "TLS_CERT_FILE" with
  | none => .nameFault "TLS_CERT_FILE"
  | some _ =>
    match lookupName "LSCAT_PORT" with
    | none => .nameFault "LSCAT_PORT"
    | some _ => .running ((TLS_CERT env).isSome) (PORT env)

/-! ## Boundary token extraction (for the wire-format invariant) -/

/-- The suffix of `l` after the first occurrence of `marker`, or `[]`
when `marker` does not occur. -/
def dropThroughAux (m : List Char) : List Char → List Char
  | [] => []
  | c :: rest =>
    if m.isPrefixOf (c :: rest) then (c :: rest).drop m.length
    else dropThroughAux m rest

/-- The boundary parameter declared in a `content-type` header value:
the text after `boundary=`, up to any `;`. -/
def boundaryOf (ct : String) : String :=
  ⟨(dropThroughAux "boundary=".data ct.data).takeWhile (fun c => c != ';')⟩

/-- The boundary token used by a part delimiter line: the text after the
leading `--`, up to the CR. -/
def partDelimToken (s : String) : String :=
  ⟨(s.data.drop 2).takeWhile (fun c => c != '\r')⟩

/-! ## Concrete fixtures -/

/-- A 3-byte frame file at the sub-feed path of feed `cam1`. -/
def fsSmall : FS := [("cam1/cam1-1/image00001.jpg", [255, 216, 217])]

/-- The same path after the external writer replaced the frame with a
5-byte file. -/
def fsBig : FS := [("cam1/cam1-1/image00001.jpg", [255, 216, 0, 0, 217])]

/-- Both the sub-feed and the tier-one frame file exist for `cam1`. -/
def fsBoth : FS :=
  [("cam1/cam1-1/image00001.jpg", [255, 216, 217]),
   ("cam1/image00001.jpg", [255, 217])]

/-- Only the tier-one frame file exists for `cam1`. -/
def fsTier1 : FS := [("cam1/image00001.jpg", [255, 217])]

/-- An iteration in which nothing goes wrong: stable filesystem, all
three sends succeed. -/
def steadyEnv : IterEnv := ⟨fsSmall, fsSmall, true, true, true⟩

/-! ## Helper lemmas -/

theorem strBytes_append (a b : String) :
    strBytes (a ++ b) = strBytes a ++ strBytes b := by
  have h : (a ++ b).data = a.data ++ b.data := rfl
  simp [strBytes, h]

theorem framePreamble_split (n : Nat) : framePreamble n =
    "--lscat_mjpeg\r\ncontent-type: image/jpg\r\ncontent-length: " ++
      (toString n ++ "\r\n\r\n") := by
  simp [framePreamble, String.append_assoc]

theorem framePreamble_take (n : Nat) :
    (strBytes (framePreamble n)).take 15 = strBytes "--lscat_mjpeg\r\n" := by
  rw [framePreamble_split, strBytes_append]
  rw [List.take_append_of_le_length (by decide)]
  decide

theorem framePreamble_long (n : Nat) :
    15 ≤ (strBytes (framePreamble n)).length := by
  rw [framePreamble_split, strBytes_append, List.length_append]
  have h : (strBytes
      "--lscat_mjpeg\r\ncontent-type: image/jpg\r\ncontent-length: ").length
      = 56 := by decide
  omega

theorem chunkWire_take (c : Chunk) :
    (chunkWire c).take 15 = strBytes "--lscat_mjpeg\r\n" := by
  unfold chunkWire
  rw [List.append_assoc, List.take_append_of_le_length (framePreamble_long _),
    framePreamble_take]

/-- No part on the wire ever begins with the multipart final terminator
`--lscat_mjpeg--`: byte 13 of every part is the CR of the delimiter
line, never a third dash. -/
theorem chunkWire_no_terminator (c : Chunk) :
    ¬ strBytes "--lscat_mjpeg--" <+: chunkWire c := by
  intro h
  have h2 := List.prefix_iff_eq_take.mp h
  have hl : (strBytes "--lscat_mjpeg--").length = 15 := by decide
  rw [hl, chunkWire_take] at h2
  exact absurd h2 (by decide)

/-- As long as no iteration raises, the loop is still in the streaming
state after any number of iterations: the `while True` body has no
`break` or `return`. -/
theorem loopRun_no_fault_streaming (envs : Nat → IterEnv) (f : String) :
    ∀ n : Nat, (∀ k, k < n → streamIteration (envs k) f ≠ .serverError) →
      ∃ cs : List Chunk, loopRun envs f n = .streaming cs
  | 0, _ => ⟨[], rfl⟩
  | n + 1, hok => by
    obtain ⟨cs, hcs⟩ := loopRun_no_fault_streaming envs f n
      (fun k hk => hok k (Nat.lt_succ_of_lt hk))
    cases hit : streamIteration (envs n) f with
    | serverError => exact absurd hit (hok n (Nat.lt_succ_self n))
    | sent c =>
      refine ⟨cs ++ [c], ?_⟩
      simp [loopRun, loopStep, hcs, hit]

/-- The only way out of the streaming state is a raised `ServerError`. -/
theorem loopStep_closed_means_fault (env : IterEnv) (f : String)
    (cs cs2 : List Chunk)
    (h : loopStep env f (.streaming cs) = .closed cs2) :
    streamIteration env f = .serverError := by
  unfold loopStep at h
  cases hit : streamIteration env f with
  | serverError => rfl
  | sent c => rw [hit] at h; simp at h

/-! ## Claims -/

/-- C1, counterexample: the declared content-length comes from
`os.stat` (line 78) while the payload comes from `open`/`read`
(lines 79-81); when the external writer replaces the 3-byte frame with
a 5-byte frame between the two system calls, the iteration sends a
chunk declaring `content-length: 3` followed by 5 payload bytes, so the
declared length does not always match the payload actually sent. -/
theorem C1_stat_read_race :
    streamIteration ⟨fsSmall, fsBig, true, true, true⟩
      "cam1/cam1-1/image00001.jpg" = .sent ⟨3, [255, 216, 0, 0, 217]⟩ ∧
    (Chunk.mk 3 [255, 216, 0, 0, 217]).declaredLen ≠
      (Chunk.mk 3 [255, 216, 0, 0, 217]).payload.length :=
  ⟨rfl, by decide⟩

/-- C1, amended: when the frame file is not replaced between the
`os.stat` call and the `open` call of one iteration, the emitted chunk's
declared content-length equals the exact byte length of the payload
that follows, and the chunk on the wire is exactly the preamble
(boundary marker, content-type header, content-length header, blank
line), the payload bytes, and a trailing CRLF. -/
theorem C1_content_length_exact (env : IterEnv) (f : String) (c : Chunk)
    (hfs : fsLookup env.fsStat f = fsLookup env.fsOpen f)
    (h : streamIteration env f = .sent c) :
    c.declaredLen = c.payload.length ∧
    chunkWire c =
      strBytes (framePreamble c.payload.length) ++ c.payload ++
        strBytes crlf := by
  unfold streamIteration statSize at h
  rw [hfs] at h
  cases h2 : fsLookup env.fsOpen f with
  | none => rw [h2] at h; simp at h
  | some bytes =>
    rw [h2] at h
    simp only [Option.map_some'] at h
    by_cases hs : (env.send1Ok && env.send2Ok && env.send3Ok) = true
    · rw [if_pos hs] at h
      have hc : c = ⟨bytes.length, bytes⟩ := by
        cases h; rfl
      subst hc
      exact ⟨rfl, rfl⟩
    · rw [if_neg hs] at h
      simp at h

/-- C1 witness: a steady iteration on the 3-byte frame. -/
theorem C1_content_length_exact_witness :
    (Chunk.mk 3 [255, 216, 217]).declaredLen =
      (Chunk.mk 3 [255, 216, 217]).payload.length ∧
    chunkWire ⟨3, [255, 216, 217]⟩ =
      strBytes (framePreamble (Chunk.mk 3 [255, 216, 217]).payload.length) ++
        (Chunk.mk 3 [255, 216, 217]).payload ++ strBytes crlf :=
  C1_content_length_exact steadyEnv "cam1/cam1-1/image00001.jpg"
    ⟨3, [255, 216, 217]⟩ rfl rfl

/-- C2: the pacing step of lines 93-95 suspends for exactly
`FRAME_TIME - elapsed` when the elapsed time is positive and below the
target frame period minus 10 milliseconds, and does not suspend at all
when the elapsed time is non-positive or at or above the period minus
10 milliseconds. -/
theorem C2_pacing_guard (frameTime elapsed : ℚ) :
    (0 < elapsed → elapsed < frameTime - 1 / 100 →
      sleepAfterFrame frameTime elapsed = some (frameTime - elapsed)) ∧
    (elapsed ≤ 0 ∨ frameTime - 1 / 100 ≤ elapsed →
      sleepAfterFrame frameTime elapsed = none) := by
  constructor
  · intro h1 h2
    unfold sleepAfterFrame
    rw [if_pos ⟨h1, h2⟩]
  · intro h
    unfold sleepAfterFrame
    rw [if_neg]
    rintro ⟨hp, hl⟩
    rcases h with h | h
    · exact absurd hp (not_lt.mpr h)
    · exact absurd hl (not_lt.mpr h)

/-- C2 witness: at a 100 ms frame period, a 50 ms iteration sleeps for
the remaining 50 ms, and a 95 ms iteration does not sleep. -/
theorem C2_pacing_guard_witness :
    sleepAfterFrame (1 / 10) (1 / 20) = some (1 / 10 - 1 / 20) ∧
    sleepAfterFrame (1 / 10) (95 / 1000) = none :=
  ⟨(C2_pacing_guard (1 / 10) (1 / 20)).1 (by norm_num) (by norm_num),
   (C2_pacing_guard (1 / 10) (95 / 1000)).2 (Or.inr (by norm_num))⟩

/-- C3, counterexample: the `except` clause on lines 83-84 catches every
exception raised inside the `try` block, including a failed
`response.send` to a disconnected client, and raises
`sanic.exceptions.ServerError` for it. Here the frame file is present
and readable (stat and read both succeed) and only the second send
fails, yet the iteration's outcome is the server-fault — so a send
fault is not silently swallowed and the server-fault response is not
reserved for read faults. -/
theorem C3_send_fault_raises :
    streamIteration ⟨fsSmall, fsSmall, true, false, true⟩
      "cam1/cam1-1/image00001.jpg" = .serverError ∧
    statSize fsSmall "cam1/cam1-1/image00001.jpg" = some 3 ∧
    fsLookup fsSmall "cam1/cam1-1/image00001.jpg" = some [255, 216, 217] :=
  ⟨rfl, rfl, rfl⟩

/-- C3, amended: a send fault is handled exactly like a read fault —
any failing `response.send` inside the `try` block ends the iteration
with a raised `ServerError`, the same server-fault outcome the read
path produces; it is not a distinct silent termination. -/
theorem C3_send_fault_server_error (env : IterEnv) (f : String)
    (_hstat : (statSize env.fsStat f).isSome = true)
    (_hopen : (fsLookup env.fsOpen f).isSome = true)
    (hsend : (env.send1Ok && env.send2Ok && env.send3Ok) = false) :
    streamIteration env f = .serverError := by
  unfold streamIteration
  cases h1 : statSize env.fsStat f with
  | none => rfl
  | some n =>
    cases h2 : fsLookup env.fsOpen f with
    | none => rfl
    | some bytes => simp [hsend]

/-- C3 witness: the concrete send-fault iteration. -/
theorem C3_send_fault_server_error_witness :
    streamIteration ⟨fsSmall, fsSmall, true, false, true⟩
      "cam1/cam1-1/image00001.jpg" = .serverError :=
  C3_send_fault_server_error ⟨fsSmall, fsSmall, true, false, true⟩
    "cam1/cam1-1/image00001.jpg" rfl rfl rfl

/-- C4: feed resolution (lines 62-66) checks the numbered sub-feed path
`{feed}/{feed}-1/image00001.jpg` first and selects it whenever it
exists — regardless of whether `{feed}/image00001.jpg` also exists —
and falls back to the tier-one path only when the sub-feed file is
absent. -/
theorem C4_subfeed_priority (fs : FS) (feed : String) :
    (pathExistsB fs
        (osPathJoin (osPathJoin feed (feed ++ "-1")) frameFileName) = true →
      resolveFeedDir fs feed = some (osPathJoin feed (feed ++ "-1"))) ∧
    (pathExistsB fs
        (osPathJoin (osPathJoin feed (feed ++ "-1")) frameFileName) = false →
      pathExistsB fs (osPathJoin feed frameFileName) = true →
      resolveFeedDir fs feed = some feed) := by
  constructor
  · intro h
    simp [resolveFeedDir, h]
  · intro h2 h1
    simp [resolveFeedDir, h2, h1]

/-- C4 witness: with both files present the sub-feed wins; with only the
tier-one file present the tier-one directory is selected. -/
theorem C4_subfeed_priority_witness :
    resolveFeedDir fsBoth "cam1" =
      some (osPathJoin "cam1" ("cam1" ++ "-1")) ∧
    resolveFeedDir fsTier1 "cam1" = some "cam1" :=
  ⟨(C4_subfeed_priority fsBoth "cam1").1 (by decide),
   (C4_subfeed_priority fsTier1 "cam1").2 (by decide) (by decide)⟩

/-- C5: when neither the sub-feed frame file nor the tier-one frame
file exists, the handler raises `NotFound` immediately and the session
never enters the streaming loop: whatever the iteration environments
and however many loop steps are considered, the session is closed with
no chunk ever emitted. -/
theorem C5_not_found_no_stream (fs : FS) (feed : String)
    (envs : Nat → IterEnv) (n : Nat)
    (h2 : pathExistsB fs
      (osPathJoin (osPathJoin feed (feed ++ "-1")) frameFileName) = false)
    (h1 : pathExistsB fs (osPathJoin feed frameFileName) = false) :
    handleSession fs feed envs n =
      (.notFound ("cannot find images for feed " ++ feed), .closed []) := by
  unfold handleSession handleRequest
  simp [resolveFeedDir, h2, h1]

/-- C5 witness: an empty filesystem and feed `cam9`. -/
theorem C5_not_found_no_stream_witness :
    handleSession [] "cam9" (fun _ => steadyEnv) 4 =
      (.notFound ("cannot find images for feed " ++ "cam9"), .closed []) :=
  C5_not_found_no_stream [] "cam9" (fun _ => steadyEnv) 4
    (by decide) (by decide)

/-- C6: the listen port is never validated. Line 38 stores whatever
string `LSCAT_SERVER_PORT` holds — here the clearly invalid
`"not-a-port"` — into `PORT` unchanged, with no parsing, range check or
rejection; and the `__main__` block then fails with a `NameError` on
the unbound name `TLS_CERT_FILE` before any port value is examined, so
no clear port error is ever produced. -/
theorem C6_port_unvalidated :
    PORT (fun k => if k = "LSCAT_SERVER_PORT" then some "not-a-port"
      else none) = .str "not-a-port" ∧
    mainBlock (fun k => if k = "LSCAT_SERVER_PORT" then some "not-a-port"
      else none) = .nameFault "TLS_CERT_FILE" :=
  ⟨rfl, rfl⟩

/-- C7: startup never reaches the plaintext (or the TLS) serving path.
For every environment — in particular one with no TLS material
configured — the `__main__` block raises `NameError` on the unbound
name `TLS_CERT_FILE` (line 114; the module defines `TLS_CERT`), so the
absence of TLS material leads to a startup failure, not to a plaintext
server. -/
theorem C7_startup_name_fault (env : Env) :
    mainBlock env = .nameFault "TLS_CERT_FILE" ∧
    TLS_CERT (fun _ => none) = none ∧
    ∀ (t : Bool) (p : PyVal), mainBlock env ≠ .running t p :=
  ⟨rfl, rfl, fun _ _ => by simp [mainBlock, lookupName, moduleNames]⟩

/-- C8: the streaming loop never ends of its own accord. As long as no
iteration raises, the session is still in the streaming state after any
number of iterations; the only transition out of the streaming state is
an iteration that raises `ServerError` (a read or send fault, the
latter covering client disconnects); and no emitted part ever begins
with the multipart final terminator `--lscat_mjpeg--`. -/
theorem C8_stream_unbounded (envs : Nat → IterEnv) (f : String) (n : Nat)
    (hok : ∀ k, k < n → streamIteration (envs k) f ≠ .serverError) :
    (∃ cs : List Chunk, loopRun envs f n = .streaming cs) ∧
    (∀ (env : IterEnv) (cs cs2 : List Chunk),
      loopStep env f (.streaming cs) = .closed cs2 →
      streamIteration env f = .serverError) ∧
    (∀ c : Chunk, ¬ strBytes "--lscat_mjpeg--" <+: chunkWire c) :=
  ⟨loopRun_no_fault_streaming envs f n hok,
   fun env cs cs2 h => loopStep_closed_means_fault env f cs cs2 h,
   chunkWire_no_terminator⟩

/-- C8 witness: three fault-free iterations on the steady environment. -/
theorem C8_stream_unbounded_witness :
    (∃ cs : List Chunk,
      loopRun (fun _ => steadyEnv) "cam1/cam1-1/image00001.jpg" 3 =
        .streaming cs) ∧
    (∀ (env : IterEnv) (cs cs2 : List Chunk),
      loopStep env "cam1/cam1-1/image00001.jpg" (.streaming cs) =
        .closed cs2 →
      streamIteration env "cam1/cam1-1/image00001.jpg" = .serverError) ∧
    (∀ c : Chunk, ¬ strBytes "--lscat_mjpeg--" <+: chunkWire c) :=
  C8_stream_unbounded (fun _ => steadyEnv) "cam1/cam1-1/image00001.jpg" 3
    (fun _ _ => by
      show streamIteration steadyEnv "cam1/cam1-1/image00001.jpg" ≠
        IterOutcome.serverError
      decide)

/-- C9: a GET on the root path `/` is dispatched to the `forbidden`
handler (lines 108-110), which raises `sanic.exceptions.Forbidden` for
every filesystem state — the root path is never resolved as a feed. -/
theorem C9_root_forbidden (fs : FS) :
    handleRequest fs .root = .forbidden :=
  rfl

/-- C10: the boundary token declared in the response content-type
(line 105, `boundary=lscat_mjpeg`) is exactly the token used in the
part delimiter that begins every emitted part (line 80,
`--lscat_mjpeg`): the preamble of every part starts with `--` followed
by the declared boundary and CRLF, for every content-length value. -/
theorem C10_boundary_coherent (n : Nat) (c : Chunk) :
    partDelimToken (framePreamble n) = boundaryOf mjpegContentType ∧
    (framePreamble n).data.take 2 = "--".data ∧
    (chunkWire c).take 15 =
      strBytes ("--" ++ boundaryOf mjpegContentType ++ crlf) :=
  ⟨rfl, rfl, chunkWire_take c⟩

end MjpegServer
